import Mathlib

/-!
Shallow embedding of the browser connection registry of chrome-devtools-mcp
(class BrowserRegistry in src/BrowserRegistry.ts).  External effects
(connection attempts, process spawns, sleeps, disposals, lock operations) are
recorded as an ordered trace of events; the outcomes of the external
collaborators (tryConnect, McpContext.from, dispose, close) are supplied as
oracle parameters or as behaviour fields on the handle/context values.
-/

/-- Error values thrown by external collaborators (attach/launch failures,
context-building failures, dispose/close failures), modelled by their
message string. -/
abbrev Err := String

/-- Connection state of a registry entry (type ConnectionState in
src/BrowserRegistry.ts). -/
inductive ConnectionState
  | pending
  | connecting
  | connected
  | disconnected
deriving DecidableEq, Repr, Inhabited

/-- Options passed through to McpContext.from (interface McpContextOptions in
src/BrowserRegistry.ts). -/
structure McpContextOptions where
  experimentalDevToolsDebugging : Bool
  experimentalIncludeAllPages : Option Bool := none
deriving DecidableEq, Repr, Inhabited

/-- A live browser handle (puppeteer Browser at the registry interface): an
identity, the liveness flag `connected` that the registry reads, and the
behaviour of its close method (`none` = close returns, `some e` = close
throws `e`).  The close behaviour models the external collaborator. -/
structure Browser where
  id : Nat
  connected : Bool
  closeError : Option Err := none
deriving DecidableEq, Repr, Inhabited

/-- A session context (McpContext at the registry interface): an identity and
the behaviour of its dispose method (`none` = dispose returns, `some e` =
dispose throws `e`).  The dispose behaviour models the external
collaborator. -/
structure McpContext where
  id : Nat
  disposeError : Option Err := none
deriving DecidableEq, Repr, Inhabited

/-- Browser configuration (interface BrowserConfig in src/BrowserRegistry.ts).
The attach/launch parameters are opaque to the registry; they are carried
here as optional opaque tokens so that presence/absence is faithful. -/
structure BrowserConfig where
  browserURL : Option String := none
  wsEndpoint : Option String := none
  launchOptions : Option Nat := none
  devtools : Bool
  mcpContextOptions : McpContextOptions
  startCommand : Option String := none
deriving DecidableEq, Repr, Inhabited

/-- One registry entry (interface BrowserEntry in src/BrowserRegistry.ts). -/
structure BrowserEntry where
  config : BrowserConfig
  browser : Option Browser := none
  context : Option McpContext := none
  state : ConnectionState
  lastError : Option Err := none
  lastAttempt : Option Nat := none
  /-- Modelled from the spec: the per-entry exclusive lock (the entry's
  `connectionMutex`; src/Mutex.ts is not among the sources).  This flag
  records whether some in-flight attempt currently holds the lock, so that
  theorems can ask whether an operation consults or acquires it. -/
  lockHeld : Bool := false
  url : String
deriving DecidableEq, Repr, Inhabited

/-- Trace events recording the external effects of registry operations, in
program order. -/
inductive Event
  | acquireLock (index : Nat)
  | releaseLock (index : Nat)
  | attemptConnect (index : Nat)
  | spawnStart (index : Nat) (cmd : String)
  | sleep (ms : Nat)
  | disposeContext (id : Nat) (ok : Bool)
  | buildContext (id : Nat)
  | closeBrowser (id : Nat) (ok : Bool)
  | logDisposeError (msg : Err)
deriving DecidableEq, Repr

/-- Events of the external connection machinery: tryConnect invocations,
start-command spawns and inter-retry sleeps. -/
def isConnEvent : Event → Bool
  | .attemptConnect _ => true
  | .spawnStart _ _ => true
  | .sleep _ => true
  | _ => false

/-- Events closing a live handle. -/
def isCloseEvent : Event → Bool
  | .closeBrowser _ _ => true
  | _ => false

/-- Events touching a per-entry lock. -/
def isLockEvent : Event → Bool
  | .acquireLock _ => true
  | .releaseLock _ => true
  | _ => false

/-- JS truthiness of the optional numeric `lastAttempt` field (`undefined`
and `0` are falsy). -/
def truthyNat : Option Nat → Bool
  | none => false
  | some n => n != 0

/-- JS truthiness of the optional string `startCommand` field (`undefined`
and the empty string are falsy). -/
def truthyStr : Option String → Bool
  | none => false
  | some s => !s.isEmpty

/-- The check `entry.browser?.connected` with optional chaining (`undefined`
is falsy). -/
def browserLive : Option Browser → Bool
  | none => false
  | some b => b.connected

/-- The error kinds raised by the registry, under the names the spec gives
them (section 7); in the code each is thrown as an Error carrying the
corresponding interpolated message. -/
inductive RegError
  | outOfRange (index : Nat) (count : Nat)
  | indexMustBeAbsent
  | indexRequired (count : Nat)
  | connectionFailed (index : Nat) (cause : Err)
  | cooldownActive (index : Nat) (waitSec : Nat) (lastError : Option Err)
deriving DecidableEq, Repr

namespace BrowserRegistry

/-- The registry state: the private ordered `browsers` array. -/
abbrev Registry := List BrowserEntry

/-- `RETRY_COOLDOWN_MS` in src/BrowserRegistry.ts. -/
def RETRY_COOLDOWN_MS : Nat := 60000

/-- `maxRetries` in connect. -/
def maxRetries : Nat := 5

/-- `retryDelayMs` in connect. -/
def retryDelayMs : Nat := 2000

/-- `count()`. -/
def count (rs : Registry) : Nat := rs.length

/-- `isEmpty()`. -/
def isEmpty (rs : Registry) : Bool := rs.length == 0

/-- `hasMultipleBrowsers()`. -/
def hasMultipleBrowsers (rs : Registry) : Bool := decide (1 < rs.length)

/-- `getAll()`: a defensive copy of the array (lists are values here, so the
copy is the list itself). -/
def getAll (rs : Registry) : List BrowserEntry := rs

/-- The entry freshly appended by `register`. -/
def pendingEntry (config : BrowserConfig) (url : String) : BrowserEntry :=
  { config := config, state := .pending, url := url }

/-- `register(config, url)`: append a pending entry, return the new array
length as the 1-based index. -/
def register (rs : Registry) (config : BrowserConfig) (url : String) :
    Registry × Nat :=
  let rs2 := rs ++ [pendingEntry config url]
  (rs2, rs2.length)

/-- Register a whole list of configurations in order, collecting the
returned indices. -/
def registerMany (rs : Registry) (cfgs : List (BrowserConfig × String)) :
    Registry × List Nat :=
  match cfgs with
  | [] => (rs, [])
  | (c, u) :: rest =>
    let p1 := register rs c u
    let p2 := registerMany p1.1 rest
    (p2.1, p1.2 :: p2.2)

/-- The fixed configuration that `addConnectedBrowser` stores. -/
def addConnectedConfig : BrowserConfig :=
  { devtools := false,
    mcpContextOptions := { experimentalDevToolsDebugging := false } }

/-- `addConnectedBrowser(browser, context, url)`: append an already-connected
entry, return the new array length as the 1-based index. -/
def addConnectedBrowser (rs : Registry) (browser : Browser)
    (context : McpContext) (url : String) : Registry × Nat :=
  let rs2 := rs ++
    [{ config := addConnectedConfig, browser := some browser,
       context := some context, state := .connected, url := url }]
  (rs2, rs2.length)

/-- `get(index)`: throws OutOfRange unless `1 <= index <= count`. -/
def get (rs : Registry) (index : Nat) : Except RegError BrowserEntry :=
  if index < 1 ∨ rs.length < index then
    .error (.outOfRange index rs.length)
  else
    .ok (rs.getD (index - 1) default)

/-- The entry at 1-based index `i` (the code's `this.browsers[index - 1]`). -/
def nthEntry (rs : Registry) (i : Nat) : BrowserEntry :=
  rs.getD (i - 1) default

/-- Outcome of a registry operation: the updated `browsers` array, the value
returned (an `Option McpContext`, `none` standing for a JS `undefined` that a
non-null assertion let through) or the error thrown, and the ordered trace of
external effects. -/
structure Outcome where
  registry : Registry
  result : Except RegError (Option McpContext)
  events : List Event
deriving Repr

/-- Modelled from the spec: the scoped acquisition of the per-entry exclusive
lock inside connect (the Mutex class of src/Mutex.ts is not among the
sources).  The spec says the lock is acquired at the start of connect and
released on every exit path; this wraps the body trace in an acquire and a
release event. -/
def lockEvents (index : Nat) (body : List Event) : List Event :=
  Event.acquireLock index :: body ++ [Event.releaseLock index]

/-- The retry wave trace: each retry is one fixed `retryDelayMs` sleep
followed by one connection attempt. -/
def retrySeq (index : Nat) : Nat → List Event
  | 0 => []
  | n + 1 =>
    Event.sleep retryDelayMs :: Event.attemptConnect index :: retrySeq index n

/-- The retry loop inside connect (`for attempt in 1..=maxRetries`): sleep
`retryDelayMs`, call tryConnect again; break with the handle on success; when
the final attempt also fails, throw that last failure.  `attempt` is the
current attempt number, `fuel` the number of attempts remaining; the `attempts`
oracle gives the outcome of each numbered tryConnect invocation. -/
def retryLoop (attempts : Nat → Except Err Browser) (index : Nat) :
    Nat → Nat → Err → List Event × Except Err Browser
  | _, 0, lastErr => ([], .error lastErr)
  | attempt, fuel + 1, _ =>
    match attempts attempt with
    | .ok b =>
      ([Event.sleep retryDelayMs, Event.attemptConnect index], .ok b)
    | .error e =>
      let rest := retryLoop attempts index (attempt + 1) fuel e
      (Event.sleep retryDelayMs :: Event.attemptConnect index :: rest.1,
        rest.2)

/-- The attempt phase of connect, entered once the fast path is skipped and
any stale context was disposed without throwing: mark the entry connecting,
record `lastAttempt`, run the first tryConnect, on failure optionally spawn
the start command and run the retry loop, then build the session context and
install the new pair, or record the terminal failure. -/
def connectAttempt (now : Nat) (attempts : Nat → Except Err Browser)
    (buildCtx : Browser → McpContextOptions → Except Err McpContext)
    (rs : Registry) (index : Nat) (runStartCommand : Bool)
    (entry0 : BrowserEntry) (disposeEvs : List Event) : Outcome :=
  let entry1 :=
    { entry0 with state := .connecting, lastAttempt := some now }
  let att :=
    match attempts 0 with
    | .ok b => ([Event.attemptConnect index], Except.ok b)
    | .error firstError =>
      if runStartCommand ∧ truthyStr entry1.config.startCommand then
        let cmd := entry1.config.startCommand.getD ""
        let rest := retryLoop attempts index 1 maxRetries firstError
        (Event.attemptConnect index :: Event.spawnStart index cmd :: rest.1,
          rest.2)
      else
        ([Event.attemptConnect index], Except.error firstError)
  match att.2 with
  | .error e =>
    let entryF := { entry1 with state := .disconnected, lastError := some e }
    { registry := rs.set (index - 1) entryF,
      result := .error (.connectionFailed index e),
      events := lockEvents index (disposeEvs ++ att.1) }
  | .ok b =>
    match buildCtx b entry1.config.mcpContextOptions with
    | .error e =>
      let entryF :=
        { entry1 with state := .disconnected, lastError := some e }
      { registry := rs.set (index - 1) entryF,
        result := .error (.connectionFailed index e),
        events :=
          lockEvents index (disposeEvs ++ att.1 ++ [Event.buildContext b.id]) }
    | .ok ctx =>
      let entryS :=
        { entry1 with browser := some b, context := some ctx,
                      state := .connected, lastError := none }
      { registry := rs.set (index - 1) entryS,
        result := .ok (some ctx),
        events :=
          lockEvents index (disposeEvs ++ att.1 ++ [Event.buildContext b.id]) }

/-- The slow path of connect, entered once the fast path is skipped: dispose
the stale context if present (a throwing dispose is caught by the outer
catch and becomes a terminal failure with the entry's context still in
place), then run the attempt phase. -/
def connectSlow (now : Nat) (attempts : Nat → Except Err Browser)
    (buildCtx : Browser → McpContextOptions → Except Err McpContext)
    (rs : Registry) (index : Nat) (runStartCommand : Bool)
    (entry : BrowserEntry) : Outcome :=
  match entry.context with
  | some c =>
    match c.disposeError with
    | some e =>
      let entryF :=
        { entry with state := .disconnected, lastError := some e }
      { registry := rs.set (index - 1) entryF,
        result := .error (.connectionFailed index e),
        events := lockEvents index [Event.disposeContext c.id false] }
    | none =>
      connectAttempt now attempts buildCtx rs index runStartCommand
        { entry with context := none } [Event.disposeContext c.id true]
  | none =>
    connectAttempt now attempts buildCtx rs index runStartCommand entry []

/-- `connect(index, force, runStartCommand)`: range-check, acquire the
entry's lock, take the fast path when not forced and the entry is connected
with a live handle, otherwise run the slow path. -/
def connect (now : Nat) (attempts : Nat → Except Err Browser)
    (buildCtx : Browser → McpContextOptions → Except Err McpContext)
    (rs : Registry) (index : Nat) (force : Bool) (runStartCommand : Bool) :
    Outcome :=
  if index < 1 ∨ rs.length < index then
    { registry := rs, result := .error (.outOfRange index rs.length),
      events := [] }
  else
    let entry := nthEntry rs index
    if force = false ∧ entry.state = .connected ∧ browserLive entry.browser
    then
      { registry := rs, result := .ok entry.context,
        events := lockEvents index [] }
    else
      connectSlow now attempts buildCtx rs index runStartCommand entry

/-- `ensureConnected(index)`: range-check, return the context of a connected
live entry with no effects, fail with CooldownActive when a disconnected
entry failed less than `RETRY_COOLDOWN_MS` ago (carrying the remaining wait
in whole seconds, rounded up, and the stored last error), otherwise delegate
to `connect(index)` with its defaults `force = false`,
`runStartCommand = false`. -/
def ensureConnected (now : Nat) (attempts : Nat → Except Err Browser)
    (buildCtx : Browser → McpContextOptions → Except Err McpContext)
    (rs : Registry) (index : Nat) : Outcome :=
  if index < 1 ∨ rs.length < index then
    { registry := rs, result := .error (.outOfRange index rs.length),
      events := [] }
  else
    let entry := nthEntry rs index
    if entry.state = .connected ∧ browserLive entry.browser then
      { registry := rs, result := .ok entry.context, events := [] }
    else if entry.state = .disconnected ∧ truthyNat entry.lastAttempt then
      let elapsed : Int := (now : Int) - (entry.lastAttempt.getD 0 : Int)
      if elapsed < (RETRY_COOLDOWN_MS : Int) then
        let waitSec : Nat :=
          (((RETRY_COOLDOWN_MS : Int) - elapsed).toNat + 999) / 1000
        { registry := rs,
          result := .error (.cooldownActive index waitSec entry.lastError),
          events := [] }
      else
        connect now attempts buildCtx rs index false false
    else
      connect now attempts buildCtx rs index false false

/-- `canRetry(index)`: false out of range; true unless the entry is
disconnected with a recorded `lastAttempt` and the cooldown window has not
yet elapsed. -/
def canRetry (now : Nat) (rs : Registry) (index : Nat) : Bool :=
  if index < 1 ∨ rs.length < index then
    false
  else
    let entry := nthEntry rs index
    if entry.state ≠ .disconnected ∨ truthyNat entry.lastAttempt = false then
      true
    else
      decide ((RETRY_COOLDOWN_MS : Int) ≤
        (now : Int) - (entry.lastAttempt.getD 0 : Int))

/-- `getContext(index?)`: the addressing contract.  With exactly one entry a
supplied index throws IndexMustBeAbsent and an omitted index resolves entry 1
via ensureConnected; otherwise an omitted index throws IndexRequired and a
supplied index resolves via ensureConnected.  (The code additionally calls
`get(index)` after a successful multi-browser resolution for logging only;
that lookup is in range whenever ensureConnected succeeded and does not
change the outcome.) -/
def getContext (now : Nat) (attempts : Nat → Except Err Browser)
    (buildCtx : Browser → McpContextOptions → Except Err McpContext)
    (rs : Registry) (index : Option Nat) : Outcome :=
  if rs.length = 1 then
    match index with
    | some _ =>
      { registry := rs, result := .error .indexMustBeAbsent, events := [] }
    | none => ensureConnected now attempts buildCtx rs 1
  else
    match index with
    | none =>
      { registry := rs, result := .error (.indexRequired rs.length),
        events := [] }
    | some i => ensureConnected now attempts buildCtx rs i

/-- The close step for one entry of `disposeAll`: close the live handle if it
reports connected; a throw from close is caught and logged. -/
def closeEvents (e : BrowserEntry) : List Event :=
  match e.browser with
  | some b =>
    if b.connected then
      match b.closeError with
      | some err => [Event.closeBrowser b.id false, Event.logDisposeError err]
      | none => [Event.closeBrowser b.id true]
    else []
  | none => []

/-- The per-entry try/catch body of `disposeAll`: dispose the session context
if present, then close the connected live handle; a throw from either call is
caught and logged and ends this entry's block (so a throwing context dispose
skips that same entry's close), and the sweep continues with the next
entry. -/
def disposeEntryEvents (e : BrowserEntry) : List Event :=
  match e.context with
  | some c =>
    match c.disposeError with
    | some err => [Event.disposeContext c.id false, Event.logDisposeError err]
    | none => Event.disposeContext c.id true :: closeEvents e
  | none => closeEvents e

/-- `disposeAll()`: best-effort dispose of every entry in order, each entry's
failures caught and logged (the function itself never throws — it has no
error outcome), then clear the `browsers` array. -/
def disposeAll (rs : Registry) : Registry × List Event :=
  (([] : Registry), rs.flatMap disposeEntryEvents)

/-! Concrete fixtures used by witnesses and counterexamples. -/

/-- Options fixture. -/
def sampleOptions : McpContextOptions :=
  { experimentalDevToolsDebugging := false }

/-- Configuration without a start command. -/
def sampleCfg : BrowserConfig :=
  { devtools := false, mcpContextOptions := sampleOptions }

/-- Configuration carrying a start command. -/
def sampleCfgStart : BrowserConfig :=
  { devtools := false, mcpContextOptions := sampleOptions,
    startCommand := some "start-the-browser" }

/-- A session context whose dispose succeeds. -/
def sampleCtx : McpContext := { id := 10 }

/-- A session context whose dispose throws. -/
def sampleBadCtx : McpContext := { id := 11, disposeError := some "dctx" }

/-- A live handle. -/
def sampleBrowser : Browser := { id := 7, connected := true }

/-- A second live handle (as produced by a fresh attempt). -/
def sampleBrowser2 : Browser := { id := 8, connected := true }

/-- A connected entry holding the pair (sampleBrowser, sampleCtx). -/
def sampleConnectedEntry : BrowserEntry :=
  { config := sampleCfg, browser := some sampleBrowser,
    context := some sampleCtx, state := .connected, url := "http://a" }

/-- A pending entry whose configuration carries a start command. -/
def samplePendingEntry : BrowserEntry :=
  { config := sampleCfgStart, state := .pending, url := "http://b" }

/-- A disconnected entry with a recorded failed attempt at time 1000. -/
def sampleDisconnectedEntry : BrowserEntry :=
  { config := sampleCfg, state := .disconnected,
    lastError := some "old failure", lastAttempt := some 1000,
    url := "http://c" }

/-- A connected entry whose lock is currently held by an in-flight attempt. -/
def sampleLockedEntry : BrowserEntry :=
  { config := sampleCfg, browser := some sampleBrowser,
    context := some sampleCtx, state := .connected, lockHeld := true,
    url := "http://d" }

/-- A connected entry whose context dispose throws. -/
def sampleBadEntry : BrowserEntry :=
  { config := sampleCfg, browser := some { id := 9, connected := true },
    context := some sampleBadCtx, state := .connected, url := "http://e" }

/-- An attempt oracle on which every tryConnect invocation fails. -/
def failingAttempts : Nat → Except Err Browser :=
  fun n => .error ("fail " ++ toString n)

/-- An attempt oracle on which every tryConnect invocation yields
sampleBrowser2. -/
def okAttempts : Nat → Except Err Browser :=
  fun _ => .ok sampleBrowser2

/-- A context builder that always fails. -/
def failingBuild : Browser → McpContextOptions → Except Err McpContext :=
  fun _ _ => .error "build failed"

/-- A context builder that derives the context identity from the handle. -/
def okBuild : Browser → McpContextOptions → Except Err McpContext :=
  fun b _ => .ok { id := 100 + b.id }

/-! Helper lemmas. -/

/-- Reading back the entry just written at 1-based index `i`. -/
theorem nthEntry_set_self (rs : Registry) (i : Nat) (e : BrowserEntry)
    (hlo : 1 ≤ i) (hhi : i ≤ rs.length) :
    nthEntry (rs.set (i - 1) e) i = e := by
  have h : i - 1 < rs.length := by omega
  simp [nthEntry, List.getD, List.getElem?_set_eq_of_lt, h]

/-- `getD` through `map` below the length. -/
theorem getD_map_of_lt (f : BrowserConfig × String → BrowserEntry)
    (l : List (BrowserConfig × String)) (n : Nat) (h : n < l.length) :
    (l.map f).getD n default = f (l.getD n default) := by
  simp [List.getD, List.getElem?_map, List.getElem?_eq_getElem, h]

/-! Theorems settling the claims. -/

/-- C10: with zero entries registered, getContext never succeeds and makes
no connection attempt: with the index omitted it fails with IndexRequired,
and with any index supplied it fails with OutOfRange over the empty valid
range 1-0 (the trace is empty in both cases, so no connection attempt is
made). -/
theorem c10_getContext_empty_registry (now : Nat)
    (attempts : Nat → Except Err Browser)
    (buildCtx : Browser → McpContextOptions → Except Err McpContext)
    (i : Nat) :
    getContext now attempts buildCtx [] none =
      { registry := [], result := .error (.indexRequired 0),
        events := [] } ∧
    getContext now attempts buildCtx [] (some i) =
      { registry := [], result := .error (.outOfRange i 0),
        events := [] } := by
  refine ⟨rfl, ?_⟩
  rcases Nat.eq_zero_or_pos i with h | h <;>
    simp [getContext, ensureConnected, h]

/-- C1: addressing contract of getContext.  With exactly one registered
entry, a supplied index fails with IndexMustBeAbsent and an omitted index
resolves entry 1 via ensureConnected; with more than one registered entry an
omitted index fails with IndexRequired and a supplied index resolves that
entry via ensureConnected (which range-checks).  The addressing errors leave
an empty trace, so they are raised before any connection attempt. -/
theorem c1_getContext_addressing (now : Nat)
    (attempts : Nat → Except Err Browser)
    (buildCtx : Browser → McpContextOptions → Except Err McpContext)
    (rs : Registry) (i : Nat) :
    (rs.length = 1 →
      getContext now attempts buildCtx rs (some i) =
        { registry := rs, result := .error .indexMustBeAbsent,
          events := [] } ∧
      getContext now attempts buildCtx rs none =
        ensureConnected now attempts buildCtx rs 1) ∧
    (1 < rs.length →
      getContext now attempts buildCtx rs none =
        { registry := rs, result := .error (.indexRequired rs.length),
          events := [] } ∧
      getContext now attempts buildCtx rs (some i) =
        ensureConnected now attempts buildCtx rs i) := by
  constructor
  · intro h
    constructor <;> simp [getContext, h]
  · intro h
    have hne : rs.length ≠ 1 := by omega
    constructor <;> simp [getContext, hne]

/-- Witness for C1 at a one-entry and a two-entry registry. -/
theorem c1_getContext_addressing_witness :
    getContext 0 failingAttempts failingBuild [sampleConnectedEntry]
        (some 1) =
      { registry := [sampleConnectedEntry],
        result := .error .indexMustBeAbsent, events := [] } ∧
    getContext 0 failingAttempts failingBuild
        [sampleConnectedEntry, samplePendingEntry] none =
      { registry := [sampleConnectedEntry, samplePendingEntry],
        result := .error (.indexRequired 2), events := [] } := by
  exact ⟨((c1_getContext_addressing 0 failingAttempts failingBuild
            [sampleConnectedEntry] 1).1 rfl).1,
         ((c1_getContext_addressing 0 failingAttempts failingBuild
            [sampleConnectedEntry, samplePendingEntry] 1).2
            (by norm_num)).1⟩

/-- The shape of successive registrations: the array grows by one pending
entry per configuration and the returned indices count up from the old
length plus one. -/
theorem registerMany_spec (cfgs : List (BrowserConfig × String)) :
    ∀ rs : Registry,
      (registerMany rs cfgs).1 =
        rs ++ cfgs.map (fun p => pendingEntry p.1 p.2) ∧
      (registerMany rs cfgs).2 = List.range' (rs.length + 1) cfgs.length := by
  induction cfgs with
  | nil => intro rs; simp [registerMany]
  | cons hd tl ih =>
    intro rs
    obtain ⟨h1, h2⟩ := ih (rs ++ [pendingEntry hd.1 hd.2])
    refine ⟨?_, ?_⟩
    · simp [registerMany, register, h1]
    · simp [registerMany, register, h2, List.range'_succ]
      try omega

/-- C7: registering N configurations (N at least 1) yields the indices 1..N
in registration order and `count() = N`; afterwards `get(i)` returns the
i-th registered entry for every valid i, while `get(0)` and `get(N+1)` both
fail with OutOfRange. -/
theorem c7_register_and_get (cfgs : List (BrowserConfig × String))
    (hne : 1 ≤ cfgs.length) :
    (registerMany [] cfgs).2 = List.range' 1 cfgs.length ∧
    count (registerMany [] cfgs).1 = cfgs.length ∧
    (∀ i, 1 ≤ i → i ≤ cfgs.length →
      get (registerMany [] cfgs).1 i =
        .ok (pendingEntry (cfgs.getD (i - 1) default).1
              (cfgs.getD (i - 1) default).2)) ∧
    get (registerMany [] cfgs).1 0 =
      .error (.outOfRange 0 cfgs.length) ∧
    get (registerMany [] cfgs).1 (cfgs.length + 1) =
      .error (.outOfRange (cfgs.length + 1) cfgs.length) := by
  obtain ⟨h1, h2⟩ := registerMany_spec cfgs []
  simp only [List.nil_append, List.length_nil, Nat.zero_add] at h1 h2
  refine ⟨h2, ?_, ?_, ?_, ?_⟩
  · simp [count, h1]
  · intro i hlo hhi
    have hb : ¬(i < 1 ∨ (registerMany [] cfgs).1.length < i) := by
      simp [h1]; omega
    have hi : i - 1 < cfgs.length := by omega
    have hz : ¬(i = 0 ∨ cfgs.length < i) := by omega
    simp [get, hb, h1, hz, List.getD, List.getElem?_map,
      List.getElem?_eq_getElem hi]
  · simp [get, h1]
  · have hb : (registerMany [] cfgs).1.length < cfgs.length + 1 := by
      simp [h1]
    simp [get, hb, h1]

/-- Witness for C7 on two concrete registrations. -/
theorem c7_register_and_get_witness :
    (registerMany [] [(sampleCfg, "a"), (sampleCfgStart, "b")]).2 =
      [1, 2] ∧
    get (registerMany [] [(sampleCfg, "a"), (sampleCfgStart, "b")]).1 2 =
      .ok (pendingEntry sampleCfgStart "b") := by
  have h := c7_register_and_get
    [(sampleCfg, "a"), (sampleCfgStart, "b")] (by norm_num)
  refine ⟨by simpa using h.1, by simpa using h.2.2.1 2 (by norm_num) (by norm_num)⟩

/-- C3: cooldown behaviour.  For an in-range disconnected entry with a
recorded `lastAttempt` of `t` (a nonzero timestamp): while fewer than
`RETRY_COOLDOWN_MS` milliseconds have elapsed, ensureConnected fails with
CooldownActive carrying a positive remaining wait (in whole seconds, rounded
up) and the stored last error, with the registry unmodified and an empty
trace (no connection attempt), and canRetry is false; once at least
`RETRY_COOLDOWN_MS` milliseconds have elapsed, canRetry is true and
ensureConnected delegates to `connect(index, force = false,
runStartCommand = false)`. -/
theorem c3_cooldown (now t : Nat) (attempts : Nat → Except Err Browser)
    (buildCtx : Browser → McpContextOptions → Except Err McpContext)
    (rs : Registry) (i : Nat)
    (hlo : 1 ≤ i) (hhi : i ≤ rs.length)
    (hstate : (nthEntry rs i).state = .disconnected)
    (hla : (nthEntry rs i).lastAttempt = some t) (ht : t ≠ 0) :
    ((now : Int) - (t : Int) < (RETRY_COOLDOWN_MS : Int) →
      ensureConnected now attempts buildCtx rs i =
        { registry := rs,
          result := .error (.cooldownActive i
            ((((RETRY_COOLDOWN_MS : Int) -
                ((now : Int) - (t : Int))).toNat + 999) / 1000)
            ((nthEntry rs i).lastError)),
          events := [] } ∧
      0 < (((RETRY_COOLDOWN_MS : Int) -
            ((now : Int) - (t : Int))).toNat + 999) / 1000 ∧
      canRetry now rs i = false) ∧
    ((RETRY_COOLDOWN_MS : Int) ≤ (now : Int) - (t : Int) →
      canRetry now rs i = true ∧
      ensureConnected now attempts buildCtx rs i =
        connect now attempts buildCtx rs i false false) := by
  have hz : ¬(i = 0 ∨ rs.length < i) := by omega
  have htt : truthyNat (some t) = true := by
    simp [truthyNat, ht]
  constructor
  · intro hcool
    refine ⟨?_, ?_, ?_⟩
    · simp [ensureConnected, hz, hstate, htt, hla, hcool]
    · have h1000 : 1000 ≤ ((RETRY_COOLDOWN_MS : Int) -
          ((now : Int) - (t : Int))).toNat + 999 := by
        have : (1 : Int) ≤ (RETRY_COOLDOWN_MS : Int) -
            ((now : Int) - (t : Int)) := by omega
        omega
      calc 0 < 1 := Nat.zero_lt_one
        _ ≤ (((RETRY_COOLDOWN_MS : Int) -
              ((now : Int) - (t : Int))).toNat + 999) / 1000 :=
          (Nat.le_div_iff_mul_le (by norm_num)).mpr (by omega)
    · have hlt : ¬((RETRY_COOLDOWN_MS : Int) ≤
          (now : Int) - (t : Int)) := by omega
      simp [canRetry, hz, hstate, htt, hla, hlt]
  · intro helapsed
    constructor
    · simp [canRetry, hz, hstate, htt, hla, helapsed]
    · have hnc : ¬((now : Int) - (t : Int) <
          (RETRY_COOLDOWN_MS : Int)) := by omega
      simp [ensureConnected, hz, hstate, htt, hla, hnc]

/-- Witness for C3: during the cooldown at elapsed 1000 ms, and after it at
elapsed 60000 ms. -/
theorem c3_cooldown_witness :
    (ensureConnected 2000 failingAttempts failingBuild
        [sampleDisconnectedEntry] 1 =
      { registry := [sampleDisconnectedEntry],
        result := .error (.cooldownActive 1 59 (some "old failure")),
        events := [] } ∧
      canRetry 2000 [sampleDisconnectedEntry] 1 = false) ∧
    (canRetry 61000 [sampleDisconnectedEntry] 1 = true ∧
      ensureConnected 61000 failingAttempts failingBuild
          [sampleDisconnectedEntry] 1 =
        connect 61000 failingAttempts failingBuild
          [sampleDisconnectedEntry] 1 false false) := by
  have h := c3_cooldown 2000 1000 failingAttempts failingBuild
    [sampleDisconnectedEntry] 1 (by norm_num) (by norm_num)
    (by rfl) (by rfl) (by norm_num)
  have h2 := c3_cooldown 61000 1000 failingAttempts failingBuild
    [sampleDisconnectedEntry] 1 (by norm_num) (by norm_num)
    (by rfl) (by rfl) (by norm_num)
  obtain ⟨ha, hp, hc⟩ := h.1 (by norm_num [RETRY_COOLDOWN_MS])
  obtain ⟨hr, hd⟩ := h2.2 (by norm_num [RETRY_COOLDOWN_MS])
  refine ⟨⟨?_, hc⟩, ⟨hr, hd⟩⟩
  simpa [RETRY_COOLDOWN_MS, nthEntry, sampleDisconnectedEntry] using ha

/-- Case analysis of the attempt phase: either a terminal failure that marks
the entry disconnected with the cause stored, or a success that installs the
new handle and the context freshly built from it. -/
theorem connectAttempt_cases (now : Nat)
    (attempts : Nat → Except Err Browser)
    (buildCtx : Browser → McpContextOptions → Except Err McpContext)
    (rs : Registry) (i : Nat) (r : Bool) (entry0 : BrowserEntry)
    (devs : List Event) :
    (∃ e, (connectAttempt now attempts buildCtx rs i r entry0 devs).registry =
        rs.set (i - 1)
          { entry0 with
              state := .disconnected
              lastError := some e
              lastAttempt := some now } ∧
      (connectAttempt now attempts buildCtx rs i r entry0 devs).result =
        .error (.connectionFailed i e)) ∨
    (∃ b ctx, buildCtx b entry0.config.mcpContextOptions = .ok ctx ∧
      (connectAttempt now attempts buildCtx rs i r entry0 devs).registry =
        rs.set (i - 1)
          { entry0 with
              browser := some b
              context := some ctx
              state := .connected
              lastError := none
              lastAttempt := some now } ∧
      (connectAttempt now attempts buildCtx rs i r entry0 devs).result =
        .ok (some ctx)) := by
  unfold connectAttempt
  cases h0 : attempts 0 with
  | ok b =>
    cases hb : buildCtx b entry0.config.mcpContextOptions with
    | ok ctx =>
      right
      exact ⟨b, ctx, hb, by simp [h0, hb], by simp [h0, hb]⟩
    | error e =>
      left
      exact ⟨e, by simp [h0, hb], by simp [h0, hb]⟩
  | error e0 =>
    by_cases hsc : (r = true ∧ truthyStr entry0.config.startCommand = true)
    · cases hr2 : (retryLoop attempts i 1 maxRetries e0).2 with
      | ok b =>
        cases hb : buildCtx b entry0.config.mcpContextOptions with
        | ok ctx =>
          right
          exact ⟨b, ctx, hb, by simp [h0, hsc, hr2, hb],
            by simp [h0, hsc, hr2, hb]⟩
        | error e =>
          left
          exact ⟨e, by simp [h0, hsc, hr2, hb], by simp [h0, hsc, hr2, hb]⟩
      | error e =>
        left
        exact ⟨e, by simp [h0, hsc, hr2], by simp [h0, hsc, hr2]⟩
    · left
      exact ⟨e0, by simp [h0, hsc], by simp [h0, hsc]⟩

/-- Case analysis of the slow path: a throwing stale-context dispose is a
terminal failure too; otherwise the attempt phase runs on the entry with its
context cleared. -/
theorem connectSlow_cases (now : Nat)
    (attempts : Nat → Except Err Browser)
    (buildCtx : Browser → McpContextOptions → Except Err McpContext)
    (rs : Registry) (i : Nat) (r : Bool) (entry : BrowserEntry) :
    (∃ e entryF, entryF.state = .disconnected ∧ entryF.lastError = some e ∧
      (connectSlow now attempts buildCtx rs i r entry).registry =
        rs.set (i - 1) entryF ∧
      (connectSlow now attempts buildCtx rs i r entry).result =
        .error (.connectionFailed i e)) ∨
    (∃ b ctx, buildCtx b entry.config.mcpContextOptions = .ok ctx ∧
      (connectSlow now attempts buildCtx rs i r entry).registry =
        rs.set (i - 1)
          { entry with
              browser := some b
              context := some ctx
              state := .connected
              lastError := none
              lastAttempt := some now } ∧
      (connectSlow now attempts buildCtx rs i r entry).result =
        .ok (some ctx)) := by
  cases hc : entry.context with
  | none =>
    have hun : connectSlow now attempts buildCtx rs i r entry =
        connectAttempt now attempts buildCtx rs i r entry [] := by
      simp [connectSlow, hc]
    rw [hun]
    rcases connectAttempt_cases now attempts buildCtx rs i r entry [] with
      ⟨e, hreg, hres⟩ | ⟨b, ctx, hb, hreg, hres⟩
    · exact Or.inl ⟨e, _, rfl, rfl, hreg, hres⟩
    · exact Or.inr ⟨b, ctx, hb, hreg, hres⟩
  | some c =>
    cases hd : c.disposeError with
    | some e =>
      refine Or.inl ⟨e,
        { entry with state := .disconnected, lastError := some e },
        rfl, rfl, ?_, ?_⟩ <;> simp [connectSlow, hc, hd]
    | none =>
      have hun : connectSlow now attempts buildCtx rs i r entry =
          connectAttempt now attempts buildCtx rs i r
            { entry with context := none }
            [Event.disposeContext c.id true] := by
        simp [connectSlow, hc, hd]
      rw [hun]
      rcases connectAttempt_cases now attempts buildCtx rs i r
          { entry with context := none }
          [Event.disposeContext c.id true] with
        ⟨e, hreg, hres⟩ | ⟨b, ctx, hb, hreg, hres⟩
      · exact Or.inl ⟨e, _, rfl, rfl, hreg, hres⟩
      · refine Or.inr ⟨b, ctx, hb, ?_, hres⟩
        rw [hreg]

/-- Full case analysis of connect on an in-range index: fast path, terminal
failure, or successful (re)connect. -/
theorem connect_cases (now : Nat) (attempts : Nat → Except Err Browser)
    (buildCtx : Browser → McpContextOptions → Except Err McpContext)
    (rs : Registry) (i : Nat) (force r : Bool)
    (hlo : 1 ≤ i) (hhi : i ≤ rs.length) :
    (force = false ∧ (nthEntry rs i).state = .connected ∧
      browserLive (nthEntry rs i).browser = true ∧
      connect now attempts buildCtx rs i force r =
        { registry := rs, result := .ok ((nthEntry rs i).context),
          events := lockEvents i [] }) ∨
    (∃ e entryF, entryF.state = .disconnected ∧ entryF.lastError = some e ∧
      (connect now attempts buildCtx rs i force r).registry =
        rs.set (i - 1) entryF ∧
      (connect now attempts buildCtx rs i force r).result =
        .error (.connectionFailed i e)) ∨
    (∃ b ctx,
      buildCtx b (nthEntry rs i).config.mcpContextOptions = .ok ctx ∧
      (connect now attempts buildCtx rs i force r).registry =
        rs.set (i - 1)
          { nthEntry rs i with
              browser := some b
              context := some ctx
              state := .connected
              lastError := none
              lastAttempt := some now } ∧
      (connect now attempts buildCtx rs i force r).result =
        .ok (some ctx)) := by
  have hz : ¬(i < 1 ∨ rs.length < i) := by omega
  by_cases hf : force = false ∧ (nthEntry rs i).state = .connected ∧
      browserLive (nthEntry rs i).browser = true
  · refine Or.inl ⟨hf.1, hf.2.1, hf.2.2, ?_⟩
    simp [connect, hz, hf]
    omega
  · have hcon : connect now attempts buildCtx rs i force r =
        connectSlow now attempts buildCtx rs i r (nthEntry rs i) := by
      simp [connect, hz, hf]
      exact fun hcontra => absurd hcontra (by omega)
    rw [hcon]
    exact Or.inr (connectSlow_cases now attempts buildCtx rs i r
      (nthEntry rs i))

/-- The fast path of connect in isolation: unchanged registry, existing
context returned, a trace holding only the lock acquire and release. -/
theorem connect_fast_path (now : Nat) (attempts : Nat → Except Err Browser)
    (buildCtx : Browser → McpContextOptions → Except Err McpContext)
    (rs : Registry) (i : Nat) (r : Bool)
    (hlo : 1 ≤ i) (hhi : i ≤ rs.length)
    (hstate : (nthEntry rs i).state = .connected)
    (hlive : browserLive (nthEntry rs i).browser = true) :
    connect now attempts buildCtx rs i false r =
      { registry := rs, result := .ok ((nthEntry rs i).context),
        events := [Event.acquireLock i, Event.releaseLock i] } := by
  have hz : ¬(i < 1 ∨ rs.length < i) := by omega
  simp [connect, hz, hstate, hlive, lockEvents]
  omega

/-- C2: single-flight fast path of connect.  For an in-range entry in state
connected whose liveness check passes, connect with force = false returns
the existing session context immediately — registry unmodified and a trace
holding only the lock acquire and release, hence no attach/launch invocation
— for either value of runStartCommand.  Consequently a second
connect(i, false, false) call issued after a first successful
connect(i, false, r1) receives the same session context and triggers no
additional attach/launch invocation, provided the installed handle still
reports live. -/
theorem c2_connect_single_flight
    (now1 now2 : Nat) (att1 att2 : Nat → Except Err Browser)
    (bc1 bc2 : Browser → McpContextOptions → Except Err McpContext)
    (rs : Registry) (i : Nat) (r1 : Bool) (b : Browser) (c ctx : McpContext)
    (hlo : 1 ≤ i) (hhi : i ≤ rs.length) :
    ((nthEntry rs i).state = .connected →
      (nthEntry rs i).browser = some b → b.connected = true →
      (nthEntry rs i).context = some c →
      ∀ r : Bool,
        connect now1 att1 bc1 rs i false r =
          { registry := rs, result := .ok (some c),
            events := [Event.acquireLock i, Event.releaseLock i] }) ∧
    ((connect now1 att1 bc1 rs i false r1).result = .ok (some ctx) →
      browserLive
        (nthEntry (connect now1 att1 bc1 rs i false r1).registry i).browser
        = true →
      connect now2 att2 bc2 (connect now1 att1 bc1 rs i false r1).registry
          i false false =
        { registry := (connect now1 att1 bc1 rs i false r1).registry,
          result := .ok (some ctx),
          events := [Event.acquireLock i, Event.releaseLock i] }) := by
  constructor
  · intro hstate hbr hbc hc r
    have hlive : browserLive (nthEntry rs i).browser = true := by
      simp [browserLive, hbr, hbc]
    have h := connect_fast_path now1 att1 bc1 rs i r hlo hhi hstate hlive
    rw [hc] at h
    exact h
  · intro hok hlive
    rcases connect_cases now1 att1 bc1 rs i false r1 hlo hhi with
      ⟨-, hst, hlv, heq⟩ | ⟨e, entryF, -, -, hreg, hres⟩ |
      ⟨b2, ctx2, hb2, hreg, hres⟩
    · have hres : (connect now1 att1 bc1 rs i false r1).result =
          .ok ((nthEntry rs i).context) := by rw [heq]
      rw [hres] at hok
      have hc2 : (nthEntry rs i).context = some ctx :=
        (Except.ok.injEq _ _ ▸ hok : _)
      have hregeq : (connect now1 att1 bc1 rs i false r1).registry = rs := by
        rw [heq]
      rw [hregeq] at hlive ⊢
      have h := connect_fast_path now2 att2 bc2 rs i false hlo hhi hst hlive
      rw [hc2] at h
      exact h
    · rw [hres] at hok
      exact absurd hok (by simp)
    · rw [hres] at hok
      have hctx : ctx2 = ctx := by
        simpa using hok
      subst hctx
      have hset : nthEntry (connect now1 att1 bc1 rs i false r1).registry i =
          { nthEntry rs i with
              browser := some b2
              context := some ctx2
              state := .connected
              lastError := none
              lastAttempt := some now1 } := by
        rw [hreg]
        exact nthEntry_set_self rs i _ hlo hhi
      have hhi2 : i ≤ (connect now1 att1 bc1 rs i false r1).registry.length := by
        rw [hreg]
        simpa using hhi
      have hst2 : (nthEntry (connect now1 att1 bc1 rs i false r1).registry i).state
          = .connected := by rw [hset]
      have h := connect_fast_path now2 att2 bc2
        (connect now1 att1 bc1 rs i false r1).registry i false hlo hhi2
        hst2 hlive
      rw [hset] at h
      exact h

/-- Witness for C2: a connected live entry is returned as-is, and a second
call after a first successful one is the fast path. -/
theorem c2_connect_single_flight_witness :
    connect 0 failingAttempts failingBuild [sampleConnectedEntry] 1
        false true =
      { registry := [sampleConnectedEntry], result := .ok (some sampleCtx),
        events := [Event.acquireLock 1, Event.releaseLock 1] } ∧
    connect 1 okAttempts okBuild [sampleConnectedEntry] 1 false false =
      { registry := [sampleConnectedEntry], result := .ok (some sampleCtx),
        events := [Event.acquireLock 1, Event.releaseLock 1] } := by
  have h := c2_connect_single_flight 0 1 failingAttempts okAttempts
    failingBuild okBuild [sampleConnectedEntry] 1 false sampleBrowser
    sampleCtx sampleCtx (by norm_num) (by norm_num)
  have ha := h.1 rfl rfl rfl rfl true
  have h2 := c2_connect_single_flight 0 1 failingAttempts okAttempts
    failingBuild okBuild [sampleConnectedEntry] 1 true sampleBrowser
    sampleCtx sampleCtx (by norm_num) (by norm_num)
  have hb := h2.2 (by rw [h2.1 rfl rfl rfl rfl true]) ?hlive
  case hlive =>
    rw [h2.1 rfl rfl rfl rfl true]
    rfl
  refine ⟨ha, ?_⟩
  rw [h2.1 rfl rfl rfl rfl true] at hb
  exact hb

/-- C5: postconditions of connect.  For an in-range index on which the fast
path does not apply (so the call actually runs the connect sequence — the
spec's steps 7 and 8 sit under the "otherwise" of its step 3): a call ending
in terminal failure leaves the entry with state disconnected and lastError
set to the failure's error value and fails with ConnectionFailed naming the
index and that cause; a successful call builds a fresh session context from
the new live handle using the entry's stored initialization options,
installs handle and context on the entry, sets state connected, clears
lastError, and returns that new session context. -/
theorem c5_connect_postconditions (now : Nat)
    (attempts : Nat → Except Err Browser)
    (buildCtx : Browser → McpContextOptions → Except Err McpContext)
    (rs : Registry) (i : Nat) (force r : Bool)
    (hlo : 1 ≤ i) (hhi : i ≤ rs.length)
    (hnf : ¬(force = false ∧ (nthEntry rs i).state = .connected ∧
      browserLive (nthEntry rs i).browser = true)) :
    (∀ err,
      (connect now attempts buildCtx rs i force r).result = .error err →
      ∃ cause, err = .connectionFailed i cause ∧
        (nthEntry (connect now attempts buildCtx rs i force r).registry
          i).state = .disconnected ∧
        (nthEntry (connect now attempts buildCtx rs i force r).registry
          i).lastError = some cause) ∧
    (∀ octx,
      (connect now attempts buildCtx rs i force r).result = .ok octx →
      ∃ ctx b, octx = some ctx ∧
        buildCtx b (nthEntry rs i).config.mcpContextOptions = .ok ctx ∧
        (nthEntry (connect now attempts buildCtx rs i force r).registry
          i).browser = some b ∧
        (nthEntry (connect now attempts buildCtx rs i force r).registry
          i).context = some ctx ∧
        (nthEntry (connect now attempts buildCtx rs i force r).registry
          i).state = .connected ∧
        (nthEntry (connect now attempts buildCtx rs i force r).registry
          i).lastError = none) := by
  rcases connect_cases now attempts buildCtx rs i force r hlo hhi with
    ⟨hf1, hf2, hf3, -⟩ | ⟨e, entryF, hstF, hleF, hreg, hres⟩ |
    ⟨b, ctx, hb, hreg, hres⟩
  · exact absurd ⟨hf1, hf2, hf3⟩ hnf
  · constructor
    · intro err herr
      rw [hres] at herr
      have he : err = .connectionFailed i e := by
        simpa using herr.symm
      subst he
      have hset : nthEntry
          (connect now attempts buildCtx rs i force r).registry i = entryF := by
        rw [hreg]
        exact nthEntry_set_self rs i _ hlo hhi
      exact ⟨e, rfl, by rw [hset]; exact hstF, by rw [hset]; exact hleF⟩
    · intro octx hok
      rw [hres] at hok
      exact absurd hok (by simp)
  · constructor
    · intro err herr
      rw [hres] at herr
      exact absurd herr (by simp)
    · intro octx hok
      rw [hres] at hok
      have ho : octx = some ctx := by simpa using hok.symm
      subst ho
      have hset : nthEntry
          (connect now attempts buildCtx rs i force r).registry i =
          { nthEntry rs i with
              browser := some b
              context := some ctx
              state := .connected
              lastError := none
              lastAttempt := some now } := by
        rw [hreg]
        exact nthEntry_set_self rs i _ hlo hhi
      exact ⟨ctx, b, rfl, hb, by rw [hset], by rw [hset], by rw [hset],
        by rw [hset]⟩

/-- Witness for C5: a terminal failure on a pending entry with no retry, and
a success on the same entry. -/
theorem c5_connect_postconditions_witness :
    (∃ cause, RegError.connectionFailed 1 "fail 0" =
        .connectionFailed 1 cause ∧
      (nthEntry (connect 5 failingAttempts failingBuild [samplePendingEntry]
        1 false false).registry 1).state = .disconnected ∧
      (nthEntry (connect 5 failingAttempts failingBuild [samplePendingEntry]
        1 false false).registry 1).lastError = some cause) ∧
    (∃ ctx b, (some { id := 108 } : Option McpContext) = some ctx ∧
      okBuild b (nthEntry [samplePendingEntry] 1).config.mcpContextOptions =
        .ok ctx ∧
      (nthEntry (connect 5 okAttempts okBuild [samplePendingEntry]
        1 false false).registry 1).browser = some b ∧
      (nthEntry (connect 5 okAttempts okBuild [samplePendingEntry]
        1 false false).registry 1).context = some ctx ∧
      (nthEntry (connect 5 okAttempts okBuild [samplePendingEntry]
        1 false false).registry 1).state = .connected ∧
      (nthEntry (connect 5 okAttempts okBuild [samplePendingEntry]
        1 false false).registry 1).lastError = none) := by
  constructor
  · exact (c5_connect_postconditions 5 failingAttempts failingBuild
      [samplePendingEntry] 1 false false (by norm_num) (by norm_num)
      (by simp [nthEntry, samplePendingEntry])).1
      (.connectionFailed 1 "fail 0") (by rfl)
  · exact (c5_connect_postconditions 5 okAttempts okBuild
      [samplePendingEntry] 1 false false (by norm_num) (by norm_num)
      (by simp [nthEntry, samplePendingEntry])).2
      (some { id := 108 }) (by rfl)

/-- The retry-wave trace consists only of connection-machinery events. -/
theorem retrySeq_filter (i : Nat) (n : Nat) :
    (retrySeq i n).filter isConnEvent = retrySeq i n := by
  induction n with
  | zero => rfl
  | succ n ih => simp [retrySeq, isConnEvent, ih]

/-- The lock wrapper adds no connection-machinery events. -/
theorem filter_lockEvents (i : Nat) (l : List Event) :
    (lockEvents i l).filter isConnEvent = l.filter isConnEvent := by
  simp [lockEvents, isConnEvent, List.filter_append]

/-- One-step unfolding of the retry loop with fuel remaining. -/
theorem retryLoop_succ (attempts : Nat → Except Err Browser) (i : Nat)
    (a fuel : Nat) (e0 : Err) :
    retryLoop attempts i a (fuel + 1) e0 =
      match attempts a with
      | .ok b => ([Event.sleep retryDelayMs, Event.attemptConnect i], .ok b)
      | .error e =>
        (Event.sleep retryDelayMs :: Event.attemptConnect i ::
          (retryLoop attempts i (a + 1) fuel e).1,
         (retryLoop attempts i (a + 1) fuel e).2) := by
  rfl

/-- When every attempt in reach fails, the retry loop consumes all its fuel,
produces one sleep-then-attempt wave per unit of fuel, and surfaces the
final attempt's failure. -/
theorem retryLoop_fail (attempts : Nat → Except Err Browser) (i : Nat)
    (es : Nat → Err) :
    ∀ (fuel a : Nat) (e0 : Err), 1 ≤ fuel →
      (∀ k, a ≤ k → k < a + fuel → attempts k = .error (es k)) →
      retryLoop attempts i a fuel e0 =
        (retrySeq i fuel, .error (es (a + fuel - 1))) := by
  intro fuel
  induction fuel with
  | zero => omega
  | succ fuel ih =>
    intro a e0 _ hk
    have ha : attempts a = .error (es a) := hk a (by omega) (by omega)
    rw [retryLoop_succ, ha]
    cases fuel with
    | zero =>
      simp [retryLoop, retrySeq]
    | succ fuel2 =>
      have hrec := ih (a + 1) (es a) (by omega)
        (fun k h1 h2 => hk k (by omega) (by omega))
      have harg : a + 1 + (fuel2 + 1) - 1 = a + (fuel2 + 1 + 1) - 1 := by
        omega
      rw [harg] at hrec
      simp [hrec, retrySeq]

/-- When the attempts before `j` fail and attempt `j` succeeds within the
fuel, the retry loop runs exactly `j + 1 - a` waves and breaks with the
handle. -/
theorem retryLoop_ok (attempts : Nat → Except Err Browser) (i : Nat)
    (es : Nat → Err) (b : Browser) (j : Nat) :
    ∀ (fuel a : Nat) (e0 : Err), a ≤ j → j < a + fuel →
      (∀ k, a ≤ k → k < j → attempts k = .error (es k)) →
      attempts j = .ok b →
      retryLoop attempts i a fuel e0 =
        (retrySeq i (j + 1 - a), .ok b) := by
  intro fuel
  induction fuel with
  | zero =>
    intro a e0 h1 h2
    omega
  | succ fuel ih =>
    intro a e0 hle hlt hk hj
    rcases Nat.eq_or_lt_of_le hle with heq | hlt2
    · have hja : attempts a = .ok b := by rw [heq]; exact hj
      have hn : j + 1 - a = 1 := by omega
      rw [retryLoop_succ, hja, hn]
      simp [retrySeq]
    · have ha : attempts a = .error (es a) := hk a (by omega) (by omega)
      have hrec := ih (a + 1) (es a) (by omega) (by omega)
        (fun k h1 h2 => hk k (by omega) h2) hj
      have hn : j + 1 - a = j + 1 - (a + 1) + 1 := by omega
      rw [retryLoop_succ, ha, hn]
      simp [hrec, retrySeq]

/-- Attempt-phase trace and result when the first attempt fails and the
start-command path is taken: one initial attempt, one spawn, then the retry
loop's waves; on loop failure the loop's last error is surfaced. -/
theorem connectAttempt_spawn_events (now : Nat)
    (attempts : Nat → Except Err Browser)
    (buildCtx : Browser → McpContextOptions → Except Err McpContext)
    (rs : Registry) (i : Nat) (entry0 : BrowserEntry) (devs : List Event)
    (e0 : Err) (cmd : String)
    (h0 : attempts 0 = .error e0)
    (hcmd : entry0.config.startCommand = some cmd) (hne : cmd ≠ "")
    (hdevs : devs.filter isConnEvent = []) :
    (∀ tr elast,
      retryLoop attempts i 1 maxRetries e0 = (tr, .error elast) →
      (connectAttempt now attempts buildCtx rs i true entry0 devs).events.filter
          isConnEvent =
        Event.attemptConnect i :: Event.spawnStart i cmd ::
          tr.filter isConnEvent ∧
      (connectAttempt now attempts buildCtx rs i true entry0 devs).result =
        .error (.connectionFailed i elast)) ∧
    (∀ tr b, retryLoop attempts i 1 maxRetries e0 = (tr, .ok b) →
      (connectAttempt now attempts buildCtx rs i true entry0 devs).events.filter
          isConnEvent =
        Event.attemptConnect i :: Event.spawnStart i cmd ::
          tr.filter isConnEvent) := by
  have htc : truthyStr (some cmd) = true := by
    simp only [truthyStr]
    cases hE : cmd.isEmpty
    · rfl
    · exact absurd ((String.isEmpty_iff cmd).mp hE) hne
  constructor
  · intro tr elast hloop
    constructor
    · simp [connectAttempt, h0, htc, hloop, hcmd, lockEvents,
        List.filter_append, hdevs, isConnEvent]
    · simp [connectAttempt, h0, htc, hloop, hcmd]
  · intro tr b hloop
    cases hb : buildCtx b entry0.config.mcpContextOptions <;>
      simp [connectAttempt, h0, htc, hloop, hcmd, hb, lockEvents,
        List.filter_append, hdevs, isConnEvent]

/-- Attempt-phase trace and result when the first attempt fails and the
start-command path is not taken: a single attempt and the first failure is
terminal. -/
theorem connectAttempt_no_spawn_events (now : Nat)
    (attempts : Nat → Except Err Browser)
    (buildCtx : Browser → McpContextOptions → Except Err McpContext)
    (rs : Registry) (i : Nat) (r : Bool) (entry0 : BrowserEntry)
    (devs : List Event) (e0 : Err)
    (h0 : attempts 0 = .error e0)
    (hns : ¬(r = true ∧ truthyStr entry0.config.startCommand = true))
    (hdevs : devs.filter isConnEvent = []) :
    (connectAttempt now attempts buildCtx rs i r entry0 devs).events.filter
        isConnEvent = [Event.attemptConnect i] ∧
    (connectAttempt now attempts buildCtx rs i r entry0 devs).result =
      .error (.connectionFailed i e0) := by
  constructor
  · simp [connectAttempt, h0, hns, filter_lockEvents, List.filter_append,
      hdevs, isConnEvent]
  · simp [connectAttempt, h0, hns]

/-- A connect call that misses the fast path and whose stale-context dispose
does not throw is the attempt phase on the (possibly context-cleared) entry,
with a trace prefix free of connection-machinery events. -/
theorem connect_slow_events (now : Nat)
    (attempts : Nat → Except Err Browser)
    (buildCtx : Browser → McpContextOptions → Except Err McpContext)
    (rs : Registry) (i : Nat) (force r : Bool)
    (hlo : 1 ≤ i) (hhi : i ≤ rs.length)
    (hnf : ¬(force = false ∧ (nthEntry rs i).state = .connected ∧
      browserLive (nthEntry rs i).browser = true))
    (hdisp : ∀ c, (nthEntry rs i).context = some c → c.disposeError = none) :
    ∃ devs entry0, devs.filter isConnEvent = [] ∧
      entry0.config = (nthEntry rs i).config ∧
      connect now attempts buildCtx rs i force r =
        connectAttempt now attempts buildCtx rs i r entry0 devs := by
  have hz : ¬(i < 1 ∨ rs.length < i) := by omega
  have hcon : connect now attempts buildCtx rs i force r =
      connectSlow now attempts buildCtx rs i r (nthEntry rs i) := by
    simp [connect, hz, hnf]
    exact fun hcontra => absurd hcontra (by omega)
  cases hc : (nthEntry rs i).context with
  | none =>
    refine ⟨[], nthEntry rs i, rfl, rfl, ?_⟩
    rw [hcon]
    simp [connectSlow, hc]
  | some c =>
    have hd := hdisp c hc
    refine ⟨[Event.disposeContext c.id true],
      { nthEntry rs i with context := none }, rfl, rfl, ?_⟩
    rw [hcon]
    simp [connectSlow, hc, hd]

/-- C4: retry policy of connect.  When the first attempt fails: if
runStartCommand is true and the configuration carries a (nonempty) start
command, the command is spawned once and the attempt is retried up to
exactly five times, each retry preceded by one fixed 2000 ms delay, and if
all five retries fail the surfaced failure is the last retry's error; if
runStartCommand is false or no start command is configured, the first
failure is terminal — a single attempt, no spawn and no sleep.  The
hypotheses place the call on the attempt path (in range, fast path missed,
stale dispose does not throw). -/
theorem c4_connect_retry_policy (now : Nat)
    (attempts : Nat → Except Err Browser)
    (buildCtx : Browser → McpContextOptions → Except Err McpContext)
    (rs : Registry) (i : Nat) (force r : Bool)
    (es : Nat → Err) (e0 : Err) (cmd : String)
    (hlo : 1 ≤ i) (hhi : i ≤ rs.length)
    (hnf : ¬(force = false ∧ (nthEntry rs i).state = .connected ∧
      browserLive (nthEntry rs i).browser = true))
    (hdisp : ∀ c, (nthEntry rs i).context = some c → c.disposeError = none)
    (h0 : attempts 0 = .error e0) :
    (r = true → (nthEntry rs i).config.startCommand = some cmd → cmd ≠ "" →
      ((∀ k, 1 ≤ k → k ≤ 5 → attempts k = .error (es k)) →
        (connect now attempts buildCtx rs i force r).events.filter
            isConnEvent =
          Event.attemptConnect i :: Event.spawnStart i cmd ::
            retrySeq i 5 ∧
        (connect now attempts buildCtx rs i force r).result =
          .error (.connectionFailed i (es 5))) ∧
      (∀ j b, 1 ≤ j → j ≤ 5 →
        (∀ k, 1 ≤ k → k < j → attempts k = .error (es k)) →
        attempts j = .ok b →
        (connect now attempts buildCtx rs i force r).events.filter
            isConnEvent =
          Event.attemptConnect i :: Event.spawnStart i cmd ::
            retrySeq i j)) ∧
    (r = false ∨ (nthEntry rs i).config.startCommand = none ∨
        (nthEntry rs i).config.startCommand = some "" →
      (connect now attempts buildCtx rs i force r).events.filter
          isConnEvent = [Event.attemptConnect i] ∧
      (connect now attempts buildCtx rs i force r).result =
        .error (.connectionFailed i e0)) := by
  obtain ⟨devs, entry0, hdf, hcfg, hceq⟩ :=
    connect_slow_events now attempts buildCtx rs i force r hlo hhi hnf hdisp
  rw [hceq]
  constructor
  · intro hr hcmd hne
    subst hr
    have hcmd0 : entry0.config.startCommand = some cmd := by
      rw [hcfg]; exact hcmd
    have hsp := connectAttempt_spawn_events now attempts buildCtx rs i
      entry0 devs e0 cmd h0 hcmd0 hne hdf
    constructor
    · intro hfail
      have hloop := retryLoop_fail attempts i es 5 1 e0 (by norm_num)
        (fun k h1 h2 => hfail k h1 (by omega))
      norm_num at hloop
      obtain ⟨hev, hres⟩ := hsp.1 (retrySeq i 5) (es 5) hloop
      exact ⟨by rw [hev, retrySeq_filter], hres⟩
    · intro j b h1j h5j hkfail hjok
      have hloop := retryLoop_ok attempts i es b j 5 1 e0 h1j (by omega)
        (fun k hk1 hk2 => hkfail k hk1 hk2) hjok
      have hj1 : j + 1 - 1 = j := by omega
      rw [hj1] at hloop
      have hev := hsp.2 (retrySeq i j) b hloop
      rw [hev, retrySeq_filter]
  · intro hdisj
    have hns : ¬(r = true ∧ truthyStr entry0.config.startCommand = true) := by
      rw [hcfg]
      rcases hdisj with hrf | hnone | hempty
      · subst hrf; simp
      · simp [hnone, truthyStr]
      · have hts : truthyStr (some "") = false := rfl
        simp [hempty, hts]
    exact connectAttempt_no_spawn_events now attempts buildCtx rs i r
      entry0 devs e0 h0 hns hdf

/-- Witness for C4: full exhaustion on the pending entry with a start
command, and the terminal single attempt with runStartCommand false. -/
theorem c4_connect_retry_policy_witness :
    ((connect 5 failingAttempts failingBuild [samplePendingEntry] 1 false
        true).events.filter isConnEvent =
      Event.attemptConnect 1 :: Event.spawnStart 1 "start-the-browser" ::
        retrySeq 1 5 ∧
      (connect 5 failingAttempts failingBuild [samplePendingEntry] 1 false
        true).result = .error (.connectionFailed 1 "fail 5")) ∧
    ((connect 5 failingAttempts failingBuild [samplePendingEntry] 1 false
        false).events.filter isConnEvent = [Event.attemptConnect 1] ∧
      (connect 5 failingAttempts failingBuild [samplePendingEntry] 1 false
        false).result = .error (.connectionFailed 1 "fail 0")) := by
  have h := c4_connect_retry_policy 5 failingAttempts failingBuild
    [samplePendingEntry] 1 false true (fun n => "fail " ++ toString n)
    "fail 0" "start-the-browser" (by norm_num) (by norm_num)
    (by simp [nthEntry, samplePendingEntry])
    (by simp [nthEntry, samplePendingEntry]) (by rfl)
  have h2 := c4_connect_retry_policy 5 failingAttempts failingBuild
    [samplePendingEntry] 1 false false (fun n => "fail " ++ toString n)
    "fail 0" "start-the-browser" (by norm_num) (by norm_num)
    (by simp [nthEntry, samplePendingEntry])
    (by simp [nthEntry, samplePendingEntry]) (by rfl)
  constructor
  · exact (h.1 rfl rfl (by decide)).1 (fun k h1 h2 => rfl)
  · exact h2.2 (Or.inl rfl)

/-- The retry loop emits no close events. -/
theorem retryLoop_no_close (attempts : Nat → Except Err Browser) (i : Nat) :
    ∀ (fuel a : Nat) (e0 : Err),
      ((retryLoop attempts i a fuel e0).1).filter isCloseEvent = [] := by
  intro fuel
  induction fuel with
  | zero => intro a e0; rfl
  | succ fuel ih =>
    intro a e0
    rw [retryLoop_succ]
    cases attempts a with
    | ok b => simp [isCloseEvent]
    | error e => simp [isCloseEvent, ih]

/-- The attempt phase emits no close events, and its whole trace is the lock
wrapper around the dispose prefix followed by attempt-phase events. -/
theorem connectAttempt_no_close (now : Nat)
    (attempts : Nat → Except Err Browser)
    (buildCtx : Browser → McpContextOptions → Except Err McpContext)
    (rs : Registry) (i : Nat) (r : Bool) (entry0 : BrowserEntry)
    (devs : List Event)
    (hdc : devs.filter isCloseEvent = []) :
    (connectAttempt now attempts buildCtx rs i r entry0 devs).events.filter
      isCloseEvent = [] ∧
    ∃ tl, (connectAttempt now attempts buildCtx rs i r entry0 devs).events =
      lockEvents i (devs ++ tl) := by
  have hloop := retryLoop_no_close attempts i maxRetries 1
  unfold connectAttempt
  cases h0 : attempts 0 with
  | ok b =>
    cases hb : buildCtx b entry0.config.mcpContextOptions with
    | ok ctx =>
      refine ⟨?_, [Event.attemptConnect i, Event.buildContext b.id],
        by simp [h0, hb]⟩
      simp [h0, hb, lockEvents, List.filter_append, hdc, isCloseEvent]
    | error e =>
      refine ⟨?_, [Event.attemptConnect i, Event.buildContext b.id],
        by simp [h0, hb]⟩
      simp [h0, hb, lockEvents, List.filter_append, hdc, isCloseEvent]
  | error e0 =>
    by_cases hsc : (r = true ∧ truthyStr entry0.config.startCommand = true)
    · cases hr2 : (retryLoop attempts i 1 maxRetries e0).2 with
      | ok b =>
        cases hb : buildCtx b entry0.config.mcpContextOptions with
        | ok ctx =>
          refine ⟨?_, Event.attemptConnect i ::
            Event.spawnStart i (entry0.config.startCommand.getD "") ::
            ((retryLoop attempts i 1 maxRetries e0).1 ++
              [Event.buildContext b.id]), by simp [h0, hsc, hr2, hb]⟩
          simp [h0, hsc, hr2, hb, lockEvents, List.filter_append, hdc,
            isCloseEvent, hloop]
        | error e =>
          refine ⟨?_, Event.attemptConnect i ::
            Event.spawnStart i (entry0.config.startCommand.getD "") ::
            ((retryLoop attempts i 1 maxRetries e0).1 ++
              [Event.buildContext b.id]), by simp [h0, hsc, hr2, hb]⟩
          simp [h0, hsc, hr2, hb, lockEvents, List.filter_append, hdc,
            isCloseEvent, hloop]
      | error e =>
        refine ⟨?_, Event.attemptConnect i ::
          Event.spawnStart i (entry0.config.startCommand.getD "") ::
          (retryLoop attempts i 1 maxRetries e0).1,
          by simp [h0, hsc, hr2]⟩
        simp [h0, hsc, hr2, lockEvents, List.filter_append, hdc,
          isCloseEvent, hloop]
    · refine ⟨?_, [Event.attemptConnect i], by simp [h0, hsc]⟩
      simp [h0, hsc, lockEvents, List.filter_append, hdc, isCloseEvent]

/-- Counterexample to C6: a forced reconnect of an entry that holds the pair
(sampleBrowser, sampleCtx) succeeds and installs the new handle
sampleBrowser2, yet its trace contains no close event whatsoever — the
previous live handle (id 7) is dropped by replacement without being closed
or disposed, contradicting the claim that the old pair is fully retired
(handle closed/disposed) before the new one is installed. -/
theorem c6_retirement_counterexample :
    (nthEntry [sampleConnectedEntry] 1).browser = some sampleBrowser ∧
    (nthEntry [sampleConnectedEntry] 1).context = some sampleCtx ∧
    (connect 5 okAttempts okBuild [sampleConnectedEntry] 1 true
      false).result = .ok (some { id := 108 }) ∧
    (nthEntry (connect 5 okAttempts okBuild [sampleConnectedEntry] 1 true
      false).registry 1).browser = some sampleBrowser2 ∧
    (connect 5 okAttempts okBuild [sampleConnectedEntry] 1 true
      false).events.filter isCloseEvent = [] := by
  exact ⟨rfl, rfl, rfl, rfl, rfl⟩

/-- C6 amended: an entry associates at most one liveHandle/sessionContext
pair at any time (it stores a single optional handle and a single optional
context), and on every reconnect of an entry that already holds a pair the
old session context is disposed first — the dispose is the first effect
after the lock acquisition, before any attempt or context build; the
previous live handle however is not retired: connect's trace never contains
a close event, so the old handle is dropped by replacement without being
closed or disposed. -/
theorem c6_retirement_amended (now : Nat)
    (attempts : Nat → Except Err Browser)
    (buildCtx : Browser → McpContextOptions → Except Err McpContext)
    (rs : Registry) (i : Nat) (force r : Bool) (c : McpContext)
    (hlo : 1 ≤ i) (hhi : i ≤ rs.length)
    (hnf : ¬(force = false ∧ (nthEntry rs i).state = .connected ∧
      browserLive (nthEntry rs i).browser = true))
    (hc : (nthEntry rs i).context = some c)
    (hd : c.disposeError = none) :
    (∃ rest, (connect now attempts buildCtx rs i force r).events =
      Event.acquireLock i :: Event.disposeContext c.id true :: rest) ∧
    (connect now attempts buildCtx rs i force r).events.filter
      isCloseEvent = [] := by
  have hz : ¬(i < 1 ∨ rs.length < i) := by omega
  have hcon : connect now attempts buildCtx rs i force r =
      connectAttempt now attempts buildCtx rs i r
        { nthEntry rs i with context := none }
        [Event.disposeContext c.id true] := by
    have hcs : connect now attempts buildCtx rs i force r =
        connectSlow now attempts buildCtx rs i r (nthEntry rs i) := by
      simp [connect, hz, hnf]
      exact fun hcontra => absurd hcontra (by omega)
    rw [hcs]
    simp [connectSlow, hc, hd]
  rw [hcon]
  obtain ⟨hnc, tl, htl⟩ := connectAttempt_no_close now attempts buildCtx rs
    i r { nthEntry rs i with context := none }
    [Event.disposeContext c.id true] (by rfl)
  refine ⟨⟨tl ++ [Event.releaseLock i], ?_⟩, hnc⟩
  rw [htl]
  simp [lockEvents]

/-- Witness for the amended C6 on the concrete forced reconnect. -/
theorem c6_retirement_amended_witness :
    (∃ rest, (connect 5 okAttempts okBuild [sampleConnectedEntry] 1 true
        false).events =
      Event.acquireLock 1 :: Event.disposeContext 10 true :: rest) ∧
    (connect 5 okAttempts okBuild [sampleConnectedEntry] 1 true
      false).events.filter isCloseEvent = [] := by
  exact c6_retirement_amended 5 okAttempts okBuild [sampleConnectedEntry]
    1 true false sampleCtx (by norm_num) (by norm_num) (by simp) rfl rfl

/-- C8: disposeAll teardown.  disposeAll never throws to its caller (it is a
total function with no error outcome: every per-entry failure is caught,
logged and the sweep continues).  For every registry — disposal failures
included — afterwards the registry is empty (`count() = 0`,
`isEmpty() = true`); the session context of every entry gets its dispose
invoked; and the still-connected live handle of every entry whose own
context dispose did not throw gets its close invoked — in particular a
disposal failure on one entry never prevents any other entry from being
disposed, since the per-entry guarantees hold for each entry regardless of
the rest of the registry. -/
theorem c8_disposeAll_teardown (rs : Registry) :
    (disposeAll rs).1 = [] ∧
    count (disposeAll rs).1 = 0 ∧
    isEmpty (disposeAll rs).1 = true ∧
    (∀ e ∈ rs, ∀ c, e.context = some c →
      ∃ ok, Event.disposeContext c.id ok ∈ (disposeAll rs).2) ∧
    (∀ e ∈ rs, ∀ b, e.browser = some b → b.connected = true →
      (∀ c, e.context = some c → c.disposeError = none) →
      ∃ ok, Event.closeBrowser b.id ok ∈ (disposeAll rs).2) := by
  refine ⟨rfl, rfl, rfl, ?_, ?_⟩
  · intro e he c hc
    cases hd : c.disposeError with
    | none =>
      refine ⟨true, List.mem_flatMap.mpr ⟨e, he, ?_⟩⟩
      simp [disposeEntryEvents, hc, hd]
    | some err =>
      refine ⟨false, List.mem_flatMap.mpr ⟨e, he, ?_⟩⟩
      simp [disposeEntryEvents, hc, hd]
  · intro e he b hb hconn hdisp
    have hmem : ∃ ok, Event.closeBrowser b.id ok ∈ closeEvents e := by
      cases hce : b.closeError with
      | none => exact ⟨true, by simp [closeEvents, hb, hconn, hce]⟩
      | some err => exact ⟨false, by simp [closeEvents, hb, hconn, hce]⟩
    obtain ⟨ok, hok⟩ := hmem
    refine ⟨ok, List.mem_flatMap.mpr ⟨e, he, ?_⟩⟩
    cases hc : e.context with
    | none => simpa [disposeEntryEvents, hc] using hok
    | some c =>
      have hd := hdisp c hc
      simp [disposeEntryEvents, hc, hd]
      exact hok

/-- Witness for C8: a two-entry registry whose first entry's context dispose
throws; the sweep still closes the second entry's live handle, attempts the
first entry's dispose, and leaves the registry empty. -/
theorem c8_disposeAll_teardown_witness :
    (disposeAll [sampleBadEntry, sampleConnectedEntry]).1 = [] ∧
    (∃ ok, Event.disposeContext 11 ok ∈
      (disposeAll [sampleBadEntry, sampleConnectedEntry]).2) ∧
    (∃ ok, Event.closeBrowser 7 ok ∈
      (disposeAll [sampleBadEntry, sampleConnectedEntry]).2) := by
  have h := c8_disposeAll_teardown [sampleBadEntry, sampleConnectedEntry]
  refine ⟨h.1, ?_, ?_⟩
  · exact h.2.2.2.1 sampleBadEntry (by simp) sampleBadCtx rfl
  · exact h.2.2.2.2 sampleConnectedEntry (by simp) sampleBrowser rfl rfl
      (fun c hc => by
        have hcs : sampleCtx = c := by
          simpa [sampleConnectedEntry] using hc
        rw [← hcs]
        rfl)

/-- The per-entry disposal block of disposeAll touches no lock. -/
theorem disposeEntryEvents_no_lock (e : BrowserEntry) :
    (disposeEntryEvents e).filter isLockEvent = [] := by
  have hclose : (closeEvents e).filter isLockEvent = [] := by
    unfold closeEvents
    cases hbr : e.browser with
    | none => rfl
    | some b =>
      by_cases hb : b.connected = true
      · cases hce : b.closeError <;> simp [hb, hce, isLockEvent]
      · simp [hb]
  unfold disposeEntryEvents
  cases hc : e.context with
  | none => exact hclose
  | some c =>
    cases hd : c.disposeError <;> simp [hd, isLockEvent, hclose]

/-- The per-entry disposal block of disposeAll does not read the lock
flag. -/
theorem disposeEntryEvents_ignores_lock (e : BrowserEntry) (b : Bool) :
    disposeEntryEvents { e with lockHeld := b } = disposeEntryEvents e := by
  cases e
  rfl

/-- Counterexample to C9: disposeAll on a registry whose single entry's lock
is currently held (an in-flight attempt owns it) disposes that entry's
context and closes its live handle anyway, and its trace contains no lock
acquisition at all — the sweep neither acquires the per-entry exclusive
lock before closing the entry nor waits for the lock's holder. -/
theorem c9_disposal_barrier_counterexample :
    sampleLockedEntry.lockHeld = true ∧
    disposeAll [sampleLockedEntry] =
      ([], [Event.disposeContext 10 true, Event.closeBrowser 7 true]) := by
  exact ⟨rfl, rfl⟩

/-- C9 amended: disposeAll is not a lock-respecting barrier.  Its trace
never contains a lock acquisition or release, and its outcome is entirely
independent of the entries' lock state: entries whose lock is currently
held by an in-flight connection attempt are disposed exactly as free ones
are. -/
theorem c9_disposeAll_ignores_locks (rs : Registry) (b : Bool) :
    (disposeAll rs).2.filter isLockEvent = [] ∧
    disposeAll (rs.map (fun e => { e with lockHeld := b })) =
      disposeAll rs := by
  constructor
  · induction rs with
    | nil => rfl
    | cons hd tl ih =>
      simp [disposeAll, List.filter_append, disposeEntryEvents_no_lock hd]
      simpa [disposeAll] using ih
  · induction rs with
    | nil => rfl
    | cons hd tl ih =>
      simp [disposeAll, disposeEntryEvents_ignores_lock hd b]
      simpa [disposeAll] using ih

end BrowserRegistry
